import Mathlib

/-!
Shallow embedding of the Spyral dApp metadata service
(`serverAPI/app/main.py`), a FastAPI application that reads song-NFT data
from a smart contract and serves ERC-721-style metadata JSON and an HTML
view.

Modelling conventions:
* Chain values are embedded at Python-decoded types: `uint` fields as
  `Nat`, the decoded state index as `Int` (Python ints), `bytes32` as a
  `List Nat` of byte values, strings as `String`.
* The two contract view calls (`getSongData`, `getCollaborators`) are
  network effects; handlers take their outcomes as explicit
  `Except String _` arguments and additionally return the list of chain
  calls they perform, so that call behaviour is part of the model.
* `web3.from_wei(_, 'ether')` returns an exact `Decimal`; it is embedded
  as exact division in `ℚ`.  Python's `float(...)` cast and `round(x, 4)`
  are modelled over `ℚ` (round-half-even at 4 decimal places); binary
  floating-point rounding error is out of scope.
* `datetime.fromtimestamp(ts).strftime('%d %b %Y')` is embedded as a
  total civil-calendar formatter at UTC; Python's platform range limits
  (years beyond 9999) are not modelled.
-/

namespace Spyral

/-- A JSON-ish attribute value: the Python code puts strings, ints and
decimal numbers into attribute `value` fields. -/
inductive AttrValue where
  | str (s : String)
  | int (n : Int)
  | rat (q : ℚ)
  deriving DecidableEq, Repr

/-- One entry of the `attributes` array:
`{"trait_type": ..., "display_type": ..., "value": ...}`;
`display_type` is absent unless the code supplies it. -/
structure Attribute where
  trait_type : String
  display_type : Option String := none
  value : AttrValue
  deriving DecidableEq, Repr

/-- The decoded tuple returned by `contract.functions.getSongData(token_id)`:
`(currentState: uint8, publishedAt: uint64, streamCount: uint128,
totalRevenue: uint128, audioHash: bytes32, spotifyId: string)` per the ABI.
The code unpacks it positionally in `get_nft_metadata`. -/
structure SongData where
  state_index : Int
  published_at : Nat
  streams : Nat
  revenue : Nat
  audio_hash : List Nat
  spotify_id : String
  deriving DecidableEq, Repr

/-- One entry of `LIFECYCLE_MAP`: a display name and an IPFS image file. -/
structure StateInfo where
  name : String
  file : String
  deriving DecidableEq, Repr

/-- `LIFECYCLE_MAP[0]`, the Upload entry. -/
def uploadInfo : StateInfo := { name := "Upload", file := "upload.jpg" }

/-- The dict `LIFECYCLE_MAP` from `main.py`, as a partial map on `Int`. -/
def LIFECYCLE_MAP : Int → Option StateInfo := fun s =>
  if s = 0 then some uploadInfo
  else if s = 1 then some { name := "Collaborate", file := "collaborate.jpg" }
  else if s = 2 then some { name := "Register", file := "register.jpg" }
  else if s = 3 then some { name := "Publish", file := "publish.jpg" }
  else if s = 4 then some { name := "Revenue", file := "revenue.jpg" }
  else none

/-- `LIFECYCLE_MAP.get(state_index, LIFECYCLE_MAP[0])`, the
lookup-with-fallback used by both endpoint handlers. -/
def lifecycleGet (s : Int) : StateInfo := (LIFECYCLE_MAP s).getD uploadInfo

/-- The constant `IPFS_BASE_CID` from `main.py`. -/
def IPFS_BASE_CID : String :=
  "ipfs://bafybeice35pax2yc3pcwjdh445g7eol7lag4z4aalpgquv6bpdjdz6m7ja"

/-- Lowercase hexadecimal digit for a value below 16. -/
def hexDigit (n : Nat) : Char :=
  if n < 10 then Char.ofNat (48 + n) else Char.ofNat (87 + n)

/-- Two lowercase hex digits of one byte. -/
def byteHex (b : Nat) : String :=
  String.mk [hexDigit (b / 16 % 16), hexDigit (b % 16)]

/-- `Web3.to_hex(bytes)`: a 0x-prefixed lowercase hex string, two digits
per byte. -/
def to_hex (bs : List Nat) : String :=
  "0x" ++ String.join (bs.map byteHex)

/-- The Python guard `audio_hash and any(b != 0 for b in audio_hash)`:
bytes truthiness (non-empty) conjoined with having a nonzero byte. -/
def audioHashPresent (h : List Nat) : Bool :=
  !h.isEmpty && h.any (fun b => b != 0)

/-- The Python guard `spotify_id and spotify_id != ""`: string truthiness
(non-empty) conjoined with inequality to the empty string. -/
def spotifyPresent (s : String) : Bool :=
  !s.isEmpty && (s != "")

/-- `w3.from_wei(value, 'ether')`: exact division of the raw integer by
10^18 (web3 computes this with `Decimal`, which is exact here). -/
def fromWeiEther (n : Nat) : ℚ := (n : ℚ) / 10 ^ 18

/-- The revenue number placed in the metadata attribute:
`float(w3.from_wei(revenue, 'ether'))`, modelled as the exact rational. -/
def revenue_display_metadata (n : Nat) : ℚ := fromWeiEther n

/-- The `attributes` array built by `get_nft_metadata`: the base
lifecycle-state attribute followed by the four state-gated append blocks,
in source order. -/
def metadata_attributes (sd : SongData) (collaborators : List String) :
    List Attribute :=
  let state_info := lifecycleGet sd.state_index
  [{ trait_type := "Lifecycle State", value := .str state_info.name }]
  ++ (if sd.state_index ≥ 0 then
        (if audioHashPresent sd.audio_hash then
          [{ trait_type := "Audio Hash", value := .str (to_hex sd.audio_hash) }]
        else [])
      else [])
  ++ (if sd.state_index ≥ 1 then
        [{ trait_type := "Collaborators", value := .int collaborators.length }]
      else [])
  ++ (if sd.state_index ≥ 2 then
        ((if spotifyPresent sd.spotify_id then
            [{ trait_type := "Spotify ID", value := .str sd.spotify_id }]
          else [])
         ++ (if sd.published_at > 0 then
            [{ trait_type := "Published Date", display_type := some "date",
               value := .int sd.published_at }]
          else []))
      else [])
  ++ (if sd.state_index ≥ 4 then
        [{ trait_type := "Stream Count", display_type := some "number",
           value := .int sd.streams },
         { trait_type := "Revenue Generated",
           value := .rat (revenue_display_metadata sd.revenue) }]
      else [])

/-- The attribute list as the specification describes it: start with the
lifecycle-state attribute, then threshold-gated fields — state ≥ 0 adds the
audio hash when the digest is not all-zero, state ≥ 1 the collaborator
count, state ≥ 2 the Spotify ID when non-empty and the published date when
nonzero, state ≥ 4 the stream count and the revenue.  Written from the
spec's words, to be compared with `metadata_attributes`. -/
def specAttributes (sd : SongData) (collaborators : List String) :
    List Attribute :=
  [{ trait_type := "Lifecycle State",
     value := .str (lifecycleGet sd.state_index).name }]
  ++ (if 0 ≤ sd.state_index ∧ ¬ (∀ b ∈ sd.audio_hash, b = 0) then
        [{ trait_type := "Audio Hash", value := .str (to_hex sd.audio_hash) }]
      else [])
  ++ (if 1 ≤ sd.state_index then
        [{ trait_type := "Collaborators", value := .int collaborators.length }]
      else [])
  ++ (if 2 ≤ sd.state_index ∧ sd.spotify_id ≠ "" then
        [{ trait_type := "Spotify ID", value := .str sd.spotify_id }]
      else [])
  ++ (if 2 ≤ sd.state_index ∧ sd.published_at ≠ 0 then
        [{ trait_type := "Published Date", display_type := some "date",
           value := .int sd.published_at }]
      else [])
  ++ (if 4 ≤ sd.state_index then
        [{ trait_type := "Stream Count", display_type := some "number",
           value := .int sd.streams },
         { trait_type := "Revenue Generated",
           value := .rat (revenue_display_metadata sd.revenue) }]
      else [])

/-- The sequence of `trait_type` strings emitted by the builder, as a
function of the state index and the three data-dependent guards. -/
def traitTypesFor (s : Int) (audio spot pub : Bool) : List String :=
  ["Lifecycle State"]
  ++ (if s ≥ 0 then (if audio then ["Audio Hash"] else []) else [])
  ++ (if s ≥ 1 then ["Collaborators"] else [])
  ++ (if s ≥ 2 then
        ((if spot then ["Spotify ID"] else [])
         ++ (if pub then ["Published Date"] else []))
      else [])
  ++ (if s ≥ 4 then ["Stream Count", "Revenue Generated"] else [])

/-- A sample decoded song tuple, used to instantiate theorems. -/
def sampleSong : SongData :=
  { state_index := 0, published_at := 1700000000, streams := 5,
    revenue := 10 ^ 18, audio_hash := 1 :: List.replicate 31 0,
    spotify_id := "abc123" }

/-- The full metadata response entity built by `get_nft_metadata`. -/
structure Metadata where
  name : String
  description : String
  image : String
  external_url : String
  attributes : List Attribute
  deriving DecidableEq, Repr

/-- The metadata dict built by `get_nft_metadata` from decoded chain
data (name, description, image, external_url, attributes). -/
def get_metadata_body (token_id : Int) (sd : SongData)
    (collaborators : List String) : Metadata :=
  let state_info := lifecycleGet sd.state_index
  { name := "Spyral Song #" ++ toString token_id,
    description := "This song is currently in the " ++ state_info.name
      ++ " phase.",
    image := IPFS_BASE_CID ++ "/" ++ state_info.file,
    external_url := "https://spyral.com/song/" ++ toString token_id,
    attributes := metadata_attributes sd collaborators }

/-- The contract view functions invoked by the handlers. -/
inductive ChainFn where
  | getSongData
  | getCollaborators
  deriving DecidableEq, Repr

/-- Outcome of the JSON metadata handler: a metadata body, or an
`HTTPException(status, detail)`. -/
inductive HandlerResult where
  | ok (m : Metadata)
  | httpError (status : Nat) (detail : String)
  deriving DecidableEq, Repr

/-- The `except` message of `get_nft_metadata`:
`f"Token {token_id} not found or error: {str(e)}"`. -/
def notFoundDetail (token_id : Int) (e : String) : String :=
  "Token " ++ toString token_id ++ " not found or error: " ++ e

/-- The `/metadata/{token_id}` handler `get_nft_metadata`.  The two chain
calls are the only fallible steps inside the `try`; their outcomes are
taken as arguments.  The second component is the list of chain calls the
handler performs: `getSongData` first, then `getCollaborators` only when
the first call did not raise. -/
def get_nft_metadata (token_id : Int) (songRes : Except String SongData)
    (collabRes : Except String (List String)) :
    HandlerResult × List (ChainFn × Int) :=
  match songRes with
  | .error e =>
      (.httpError 404 (notFoundDetail token_id e), [(.getSongData, token_id)])
  | .ok sd =>
      match collabRes with
      | .error e =>
          (.httpError 404 (notFoundDetail token_id e),
           [(.getSongData, token_id), (.getCollaborators, token_id)])
      | .ok collaborators =>
          (.ok (get_metadata_body token_id sd collaborators),
           [(.getSongData, token_id), (.getCollaborators, token_id)])

/-- The status-color palette literal indexed by `state_idx` in
`view_nft_modern`. -/
def STATUS_COLORS : List String :=
  ["bg-slate-500", "bg-blue-600", "bg-fuchsia-600", "bg-emerald-500",
   "bg-amber-500"]

/-- Python list indexing `l[i]`: non-negative indices below the length,
negative indices counted from the end; out of range raises `IndexError`
(`none`). -/
def pyIndex {α : Type} (l : List α) (i : Int) : Option α :=
  if 0 ≤ i then l.get? i.toNat
  else if 0 ≤ i + l.length then l.get? (i + l.length).toNat
  else none

/-- Python `int(x)`: truncation toward zero. -/
def pyIntTrunc (q : ℚ) : Int :=
  if 0 ≤ q then ⌊q⌋ else ⌈q⌉

/-- The progress expression `int(((state_idx + 1) / 5) * 100)` of the view
endpoint (Python 3 `/` is exact division here; the double rounding of the
two float operations is exact on this expression's values). -/
def progress_of (s : Int) : Int :=
  pyIntTrunc (((s : ℚ) + 1) / 5 * 100)

/-- Python `round` to an integer: nearest, ties to even. -/
def rat_round (q : ℚ) : Int :=
  let fl := ⌊q⌋
  if q - fl < 1 / 2 then fl
  else if 1 / 2 < q - fl then fl + 1
  else if fl % 2 = 0 then fl else fl + 1

/-- Python `round(x, 4)`: round-half-even at 4 decimal places, over ℚ. -/
def round4 (q : ℚ) : ℚ := (rat_round (q * 10 ^ 4) : ℚ) / 10 ^ 4

/-- The revenue number placed in the view context:
`round(float(w3.from_wei(song_data[3], 'ether')), 4)`. -/
def revenue_display_view (n : Nat) : ℚ := round4 (fromWeiEther n)

/-- English month abbreviations used by `strftime('%b')`. -/
def MONTH_ABBREV : List String :=
  ["Jan", "Feb", "Mar", "Apr", "May", "Jun", "Jul", "Aug", "Sep", "Oct",
   "Nov", "Dec"]

/-- Zero-padded two-digit rendering used by `strftime('%d')`. -/
def pad2 (n : Nat) : String :=
  if n < 10 then "0" ++ toString n else toString n

/-- Civil date (year, month, day) of a day count since 1970-01-01
(proleptic Gregorian calendar, Howard Hinnant's algorithm for the
non-negative era). -/
def civil_from_days (days : Nat) : Nat × Nat × Nat :=
  let z := days + 719468
  let era := z / 146097
  let doe := z % 146097
  let yoe := (doe - doe / 1460 + doe / 36524 - doe / 146096) / 365
  let doy := doe - (365 * yoe + yoe / 4 - yoe / 100)
  let mp := (5 * doy + 2) / 153
  let d := doy - (153 * mp + 2) / 5 + 1
  let m := if mp < 10 then mp + 3 else mp - 9
  let y := yoe + era * 400
  (if m ≤ 2 then y + 1 else y, m, d)

/-- `datetime.fromtimestamp(ts).strftime('%d %b %Y')` at UTC, as a total
civil-calendar formatter (Python's year-9999 range limit is not
modelled). -/
def strftime_d_b_Y (ts : Nat) : String :=
  let ymd := civil_from_days (ts / 86400)
  pad2 ymd.2.2 ++ " " ++ (MONTH_ABBREV.getD (ymd.2.1 - 1) "") ++ " "
    ++ toString ymd.1

/-- The `pub_date` expression of the view endpoint:
`datetime.fromtimestamp(song_data[1]).strftime('%d %b %Y') if song_data[1] > 0
else "Pending"`. -/
def pub_date_of (ts : Nat) : String :=
  if ts > 0 then strftime_d_b_Y ts else "Pending"

/-- The template context dict built by `view_nft_modern` (minus the
request object, which carries no data). -/
structure ViewContext where
  token_id : Int
  state_name : String
  image_url : String
  streams : Nat
  revenue : ℚ
  spotify_id : String
  pub_date : String
  progress : Int
  status_color : String
  deriving DecidableEq, Repr

/-- Construction of the view context from decoded song data.  The only
fallible step modelled is the palette indexing
`[...][state_idx]`, which raises `IndexError` out of range; the raise is
caught by the handler's `except`. -/
def view_build_context (token_id : Int) (sd : SongData) :
    Except String ViewContext :=
  match pyIndex STATUS_COLORS sd.state_index with
  | none => .error "list index out of range"
  | some color =>
      let state_info := lifecycleGet sd.state_index
      .ok { token_id := token_id,
            state_name := state_info.name,
            image_url := "https://ipfs.io/ipfs/"
              ++ String.replace IPFS_BASE_CID "ipfs://" "" ++ "/"
              ++ state_info.file,
            streams := sd.streams,
            revenue := revenue_display_view sd.revenue,
            spotify_id := sd.spotify_id,
            pub_date := pub_date_of sd.published_at,
            progress := progress_of sd.state_index,
            status_color := color }

/-- Outcome of the HTML view handler: a rendered context, or an
`HTTPException(status, detail)`. -/
inductive ViewResult where
  | ok (ctx : ViewContext)
  | httpError (status : Nat) (detail : String)
  deriving DecidableEq, Repr

/-- The `/view/{token_id}` handler `view_nft_modern`.  It performs a single
chain call (`getSongData`); any raise inside the `try` becomes a 404 whose
detail is the error text.  The second component is the list of chain calls
performed. -/
def view_nft_modern (token_id : Int) (songRes : Except String SongData) :
    ViewResult × List (ChainFn × Int) :=
  match songRes with
  | .error e => (.httpError 404 e, [(.getSongData, token_id)])
  | .ok sd =>
      match view_build_context token_id sd with
      | .error e => (.httpError 404 e, [(.getSongData, token_id)])
      | .ok ctx => (.ok ctx, [(.getSongData, token_id)])

/-- The three GET routes of the application. -/
inductive Route where
  | root
  | metadata (token_id : Int)
  | view (token_id : Int)

/-- Outcomes of the two chain reads, per token id: the environment the
request handlers run against. -/
structure ChainEnv where
  songData : Int → Except String SongData
  collaborators : Int → Except String (List String)

/-- The possible response bodies of the application. -/
inductive ResponseBody where
  | errorJson (error : String)
  | statusJson (status network : String)
  | metadataJson (m : Metadata)
  | htmlView (ctx : ViewContext)
  | detailJson (detail : String)
  deriving DecidableEq, Repr

/-- An HTTP response: status code and body. -/
structure HttpResponse where
  status : Nat
  body : ResponseBody
  deriving DecidableEq, Repr

/-- The application's request handling: the `allow_only_get` middleware
(any non-GET method gets a 405 JSON body before any routing), then the
route handlers.  The second component is the list of endpoint handlers
invoked. -/
def app_handle (env : ChainEnv) (method : String) (route : Route) :
    HttpResponse × List String :=
  if method ≠ "GET" then
    ({ status := 405, body := .errorJson "Method not allowed" }, [])
  else
    match route with
    | .root =>
        ({ status := 200, body := .statusJson "ok" "Base Sepolia" }, ["root"])
    | .metadata token_id =>
        (match (get_nft_metadata token_id (env.songData token_id)
            (env.collaborators token_id)).1 with
         | .ok m => { status := 200, body := .metadataJson m }
         | .httpError st d => { status := st, body := .detailJson d },
         ["get_nft_metadata"])
    | .view token_id =>
        (match (view_nft_modern token_id (env.songData token_id)).1 with
         | .ok ctx => { status := 200, body := .htmlView ctx }
         | .httpError st d => { status := st, body := .detailJson d },
         ["view_nft_modern"])

/-- A stub chain environment whose reads always succeed, used to
instantiate theorems. -/
def stubEnv : ChainEnv :=
  { songData := fun _ => Except.ok sampleSong,
    collaborators := fun _ => Except.ok [] }

end Spyral

open Spyral

/-- C2: the lifecycle lookup returns the matching name/image-file pair for
each state code 0-4, and the state-0 pair (Upload / upload.jpg) for every
other integer. -/
theorem lifecycleGet_spec :
    lifecycleGet 0 = { name := "Upload", file := "upload.jpg" } ∧
    lifecycleGet 1 = { name := "Collaborate", file := "collaborate.jpg" } ∧
    lifecycleGet 2 = { name := "Register", file := "register.jpg" } ∧
    lifecycleGet 3 = { name := "Publish", file := "publish.jpg" } ∧
    lifecycleGet 4 = { name := "Revenue", file := "revenue.jpg" } ∧
    ∀ s : Int, s ≠ 0 → s ≠ 1 → s ≠ 2 → s ≠ 3 → s ≠ 4 →
      lifecycleGet s = { name := "Upload", file := "upload.jpg" } := by
  refine ⟨rfl, rfl, rfl, rfl, rfl, ?_⟩
  intro s h0 h1 h2 h3 h4
  simp [lifecycleGet, LIFECYCLE_MAP, h0, h1, h2, h3, h4, uploadInfo]

/-- C2 witness: instantiation of the lookup theorem at the out-of-range
state code 7. -/
theorem lifecycleGet_spec_witness :
    lifecycleGet 7 = { name := "Upload", file := "upload.jpg" } :=
  lifecycleGet_spec.2.2.2.2.2 7 (by decide) (by decide) (by decide)
    (by decide) (by decide)

/-- The code's audio-hash guard agrees with "the digest is not all-zero"
whenever the digest is non-empty. -/
theorem audioHashPresent_iff (h : List Nat) (hne : h ≠ []) :
    audioHashPresent h = true ↔ ¬ (∀ b ∈ h, b = 0) := by
  simp [audioHashPresent, hne, List.any_eq_true]

/-- The code's Spotify-ID guard agrees with "the string is non-empty". -/
theorem spotifyPresent_iff (s : String) :
    spotifyPresent s = true ↔ s ≠ "" := by
  simp [spotifyPresent, Bool.eq_false_iff, String.isEmpty_iff]

/-- C1: for state codes 0-4 and a 32-byte audio digest, the attribute list
built by `get_nft_metadata` is exactly the threshold-gated list described
by the spec (`specAttributes`); in particular, at state 0 with an all-zero
digest it is exactly the lifecycle-state attribute. -/
theorem metadata_attributes_progressive (sd : SongData)
    (collaborators : List String) (hs0 : 0 ≤ sd.state_index)
    (hs4 : sd.state_index ≤ 4) (hlen : sd.audio_hash.length = 32) :
    metadata_attributes sd collaborators = specAttributes sd collaborators ∧
    (sd.state_index = 0 → (∀ b ∈ sd.audio_hash, b = 0) →
      metadata_attributes sd collaborators =
        [{ trait_type := "Lifecycle State", value := .str "Upload" }]) := by
  have hne : sd.audio_hash ≠ [] := by
    intro h
    rw [h] at hlen
    simp at hlen
  constructor
  · by_cases h2 : 2 ≤ sd.state_index <;>
      simp [metadata_attributes, specAttributes, ge_iff_le, hs0, h2,
        audioHashPresent_iff _ hne, spotifyPresent_iff,
        Nat.pos_iff_ne_zero]
  · intro h0 hall
    have hpres : audioHashPresent sd.audio_hash = false := by
      rw [← Bool.not_eq_true, audioHashPresent_iff _ hne]
      simpa using hall
    norm_num [metadata_attributes, h0, hpres, lifecycleGet, LIFECYCLE_MAP,
      uploadInfo]

/-- C1 witness: the theorem applied to a concrete state-0 song with an
all-zero 32-byte digest, yielding the singleton attribute list. -/
theorem metadata_attributes_progressive_witness :
    metadata_attributes
        { state_index := 0, published_at := 0, streams := 0, revenue := 0,
          audio_hash := List.replicate 32 0, spotify_id := "" } [] =
      [{ trait_type := "Lifecycle State", value := .str "Upload" }] :=
  (metadata_attributes_progressive
      { state_index := 0, published_at := 0, streams := 0, revenue := 0,
        audio_hash := List.replicate 32 0, spotify_id := "" } []
      (by decide) (by decide) (by decide)).2 rfl (by decide)

/-- The trait types emitted by the builder are `traitTypesFor` at the
state index and the three data guards. -/
theorem map_traitTypes (sd : SongData) (collaborators : List String) :
    (metadata_attributes sd collaborators).map Attribute.trait_type =
      traitTypesFor sd.state_index (audioHashPresent sd.audio_hash)
        (spotifyPresent sd.spotify_id) (decide (sd.published_at > 0)) := by
  simp [metadata_attributes, traitTypesFor,
    apply_ite (List.map Attribute.trait_type)]

/-- For fixed guard values, advancing the state within 0-4 only appends
trait types. -/
theorem traitTypesFor_mono (a b p : Bool) (s t : Int) (hs : 0 ≤ s)
    (hst : s ≤ t) (ht : t ≤ 4) :
    traitTypesFor s a b p <+: traitTypesFor t a b p := by
  have h1 : 0 ≤ t := hs.trans hst
  have h2 : s ≤ 4 := hst.trans ht
  interval_cases s <;> interval_cases t <;> cases a <;> cases b <;>
    cases p <;> decide

/-- C10: with identical song data and collaborators, the sequence of trait
types built for a lower state 0 ≤ s ≤ t ≤ 4 is a prefix of the sequence
built for the higher state t — attributes are only appended as the state
advances. -/
theorem trait_types_monotone (sd : SongData) (collaborators : List String)
    (s t : Int) (hs : 0 ≤ s) (hst : s ≤ t) (ht : t ≤ 4) :
    (metadata_attributes { sd with state_index := s } collaborators).map
        Attribute.trait_type <+:
      (metadata_attributes { sd with state_index := t } collaborators).map
        Attribute.trait_type := by
  rw [map_traitTypes, map_traitTypes]
  exact traitTypesFor_mono _ _ _ s t hs hst ht

/-- C10 witness: the prefix theorem applied to the sample song at states
1 and 3. -/
theorem trait_types_monotone_witness :
    (metadata_attributes { sampleSong with state_index := 1 } ["w1", "w2"]).map
        Attribute.trait_type <+:
      (metadata_attributes { sampleSong with state_index := 3 } ["w1", "w2"]).map
        Attribute.trait_type :=
  trait_types_monotone sampleSong ["w1", "w2"] 1 3 (by decide) (by decide)
    (by decide)

/-- C4: the metadata endpoint returns the full metadata body exactly when
both chain reads succeed; if either read fails it returns a 404 whose
detail embeds the token id and the error text; every outcome is one of
these two shapes, so no partial payload is possible. -/
theorem get_nft_metadata_full_or_404 (token_id : Int)
    (songRes : Except String SongData)
    (collabRes : Except String (List String)) :
    (∀ sd collaborators, songRes = .ok sd → collabRes = .ok collaborators →
      (get_nft_metadata token_id songRes collabRes).1 =
        .ok (get_metadata_body token_id sd collaborators)) ∧
    (∀ e, songRes = .error e →
      (get_nft_metadata token_id songRes collabRes).1 = .httpError 404
        ("Token " ++ toString token_id ++ " not found or error: " ++ e)) ∧
    (∀ sd e, songRes = .ok sd → collabRes = .error e →
      (get_nft_metadata token_id songRes collabRes).1 = .httpError 404
        ("Token " ++ toString token_id ++ " not found or error: " ++ e)) ∧
    ((∃ sd collaborators, (get_nft_metadata token_id songRes collabRes).1 =
        .ok (get_metadata_body token_id sd collaborators)) ∨
      (∃ e, (get_nft_metadata token_id songRes collabRes).1 = .httpError 404
        ("Token " ++ toString token_id ++ " not found or error: " ++ e))) := by
  rcases songRes with e | sd
  · refine ⟨?_, ?_, ?_, Or.inr ⟨e, rfl⟩⟩
    · intro sd c h1 _
      simp at h1
    · intro e2 h
      injection h with h
      subst h
      rfl
    · intro sd e2 h1 _
      simp at h1
  · rcases collabRes with e | c
    · refine ⟨?_, ?_, ?_, Or.inr ⟨e, rfl⟩⟩
      · intro sd2 c h1 h2
        simp at h2
      · intro e2 h
        simp at h
      · intro sd2 e2 h1 h2
        injection h1 with h1
        subst h1
        injection h2 with h2
        subst h2
        rfl
    · refine ⟨?_, ?_, ?_, Or.inl ⟨sd, c, rfl⟩⟩
      · intro sd2 c2 h1 h2
        injection h1 with h1
        subst h1
        injection h2 with h2
        subst h2
        rfl
      · intro e h
        simp at h
      · intro sd2 e h1 h2
        simp at h2

/-- C4 witness: a failing song-data read at token 7 yields the 404 with
the embedded token id and error text. -/
theorem get_nft_metadata_full_or_404_witness :
    (get_nft_metadata 7 (Except.error "connection refused")
        (Except.ok [])).1 = .httpError 404
      ("Token " ++ toString (7 : Int) ++ " not found or error: "
        ++ "connection refused") :=
  (get_nft_metadata_full_or_404 7 (Except.error "connection refused")
      (Except.ok [])).2.1 "connection refused" rfl

/-- C6 counterexample: at token 7 with a successful song-data read, the
view handler's chain-call list is just `getSongData`; it never contains
`getCollaborators`, contradicting the claim that the view endpoint
performs both chain reads. -/
theorem view_reads_counterexample :
    (view_nft_modern 7 (Except.ok sampleSong)).2 =
        [(ChainFn.getSongData, 7)] ∧
      (ChainFn.getCollaborators, (7 : Int)) ∉
        (view_nft_modern 7 (Except.ok sampleSong)).2 := by
  exact ⟨rfl, by decide⟩

/-- C6 amended: the view endpoint performs exactly one chain read,
`getSongData`; its rendered context is built from song data alone and the
collaborator read never happens there. -/
theorem view_reads_only_song_data (token_id : Int)
    (songRes : Except String SongData) :
    (view_nft_modern token_id songRes).2 =
      [(ChainFn.getSongData, token_id)] := by
  rcases songRes with e | sd
  · rfl
  · cases h : view_build_context token_id sd <;>
      simp [view_nft_modern, h]

/-- C7: every request whose method is not GET is answered by the
`allow_only_get` middleware with a 405 and the fixed error body, on every
route and chain environment, with no endpoint handler invoked. -/
theorem non_get_always_405 (env : ChainEnv) (method : String)
    (route : Route) (h : method ≠ "GET") :
    app_handle env method route =
      ({ status := 405, body := .errorJson "Method not allowed" }, []) := by
  simp [app_handle, h]

/-- C7 witness: a POST to the metadata route against the stub environment
yields the 405 response and an empty handler trace. -/
theorem non_get_always_405_witness :
    app_handle stubEnv "POST" (Route.metadata 7) =
      ({ status := 405, body := .errorJson "Method not allowed" }, []) :=
  non_get_always_405 stubEnv "POST" (Route.metadata 7) (by decide)

/-- C8: the view progress percentage is the truncation toward zero of
(state+1)/5*100, which equals (state+1)*20 for every integer state; in
particular 20 at state 0 and 100 at state 4. -/
theorem progress_spec :
    (∀ s : Int, progress_of s = pyIntTrunc (((s : ℚ) + 1) / 5 * 100)) ∧
    (∀ s : Int, progress_of s = (s + 1) * 20) ∧
    progress_of 0 = 20 ∧ progress_of 4 = 100 := by
  have key : ∀ s : Int, progress_of s = (s + 1) * 20 := by
    intro s
    have hq : ((s : ℚ) + 1) / 5 * 100 = (((s + 1) * 20 : Int) : ℚ) := by
      push_cast
      ring
    unfold progress_of pyIntTrunc
    rw [hq]
    by_cases h : (0 : ℚ) ≤ (((s + 1) * 20 : Int) : ℚ)
    · rw [if_pos h]
      exact Int.floor_intCast _
    · rw [if_neg h]
      exact Int.ceil_intCast _
  exact ⟨fun s => rfl, key, key 0, key 4⟩

/-- C9: the view publish date is the literal Pending at raw timestamp 0
and the civil-date rendering for every positive timestamp; at the concrete
timestamp 1700000000 this is 14 Nov 2023. -/
theorem pub_date_spec :
    pub_date_of 0 = "Pending" ∧
    (∀ ts : Nat, 0 < ts → pub_date_of ts = strftime_d_b_Y ts) ∧
    strftime_d_b_Y 1700000000 = "14 Nov 2023" := by
  refine ⟨rfl, ?_, by decide⟩
  intro ts h
  simp [pub_date_of, h]

/-- C9 witness: the positive-timestamp branch at 1700000000. -/
theorem pub_date_spec_witness :
    0 < 1700000000 ∧
      pub_date_of 1700000000 = strftime_d_b_Y 1700000000 :=
  ⟨by decide, pub_date_spec.2.1 1700000000 (by decide)⟩

/-- C5 counterexample: at raw revenue 10^13 the view endpoint's displayed
revenue is 0 (rounded to 4 decimal places), not 10^13 / 10^18 = 0.00001,
so the displayed value does not always equal raw / 10^18. -/
theorem view_revenue_counterexample :
    revenue_display_view (10 ^ 13) = 0 ∧
      (10 ^ 13 : ℚ) / 10 ^ 18 ≠ 0 := by
  constructor
  · norm_num [revenue_display_view, round4, rat_round, fromWeiEther]
  · norm_num

/-- C5 amended: the metadata endpoint displays exactly raw / 10^18; the
view endpoint displays that value rounded half-to-even at 4 decimal
places; raw 10^18 displays as 1 on both. -/
theorem revenue_display_spec :
    (∀ r : Nat, revenue_display_metadata r = (r : ℚ) / 10 ^ 18) ∧
    (∀ r : Nat, revenue_display_view r = round4 ((r : ℚ) / 10 ^ 18)) ∧
    revenue_display_metadata (10 ^ 18) = 1 ∧
    revenue_display_view (10 ^ 18) = 1 := by
  refine ⟨fun r => rfl, fun r => rfl, ?_, ?_⟩
  · norm_num [revenue_display_metadata, fromWeiEther]
  · norm_num [revenue_display_view, round4, rat_round, fromWeiEther]

/-- Out of the 0-4 range, the lifecycle lookup falls back to the Upload
entry. -/
theorem lifecycleGet_out_of_range (s : Int)
    (h : s < 0 ∨ 4 < s) : lifecycleGet s = uploadInfo := by
  rcases h with h | h <;>
    (unfold lifecycleGet LIFECYCLE_MAP; split_ifs <;> first | rfl | omega)

/-- Python indexing of the 5-entry palette succeeds for -5 ≤ i ≤ 4. -/
theorem pyIndex_colors_some (s : Int) (h1 : -5 ≤ s) (h2 : s ≤ 4) :
    ∃ c, pyIndex STATUS_COLORS s = some c := by
  interval_cases s <;> exact ⟨_, rfl⟩

/-- Python indexing of the 5-entry palette raises out of [-5, 4]. -/
theorem pyIndex_colors_none (s : Int) (h : s < -5 ∨ 4 < s) :
    pyIndex STATUS_COLORS s = none := by
  unfold pyIndex
  rcases h with h | h
  · rw [if_neg (by omega), if_neg]
    simp only [STATUS_COLORS, List.length_cons, List.length_nil]
    omega
  · rw [if_pos (by omega)]
    apply List.get?_eq_none.mpr
    simp only [STATUS_COLORS, List.length_cons, List.length_nil]
    omega

/-- On a successful song read, the view handler's result is the context
build outcome (success case). -/
theorem view_nft_modern_ok_eq (token_id : Int) (sd : SongData)
    (ctx : ViewContext)
    (h : view_build_context token_id sd = Except.ok ctx) :
    (view_nft_modern token_id (Except.ok sd)).1 = ViewResult.ok ctx := by
  simp [view_nft_modern, h]

/-- On a successful song read, the view handler's result is the context
build outcome (failure case, a 404). -/
theorem view_nft_modern_err_eq (token_id : Int) (sd : SongData)
    (e : String)
    (h : view_build_context token_id sd = Except.error e) :
    (view_nft_modern token_id (Except.ok sd)).1 =
      ViewResult.httpError 404 e := by
  simp [view_nft_modern, h]

/-- C3 amended: for a state code outside 0-4, the metadata handler always
succeeds with the full body and the state-0 display info; the view
handler succeeds (also with state-0 display info) when -5 ≤ state ≤ -1,
where Python's negative list indexing still finds a status color, but
fails with a 404 when state ≥ 5 or state ≤ -6, where the palette indexing
raises IndexError. -/
theorem unknown_state_fallback (sd : SongData)
    (collaborators : List String) (token_id : Int)
    (hout : sd.state_index < 0 ∨ 4 < sd.state_index) :
    (get_nft_metadata token_id (Except.ok sd) (Except.ok collaborators)).1 =
        HandlerResult.ok (get_metadata_body token_id sd collaborators) ∧
    lifecycleGet sd.state_index = uploadInfo ∧
    (-5 ≤ sd.state_index → sd.state_index < 0 → ∃ ctx,
      (view_nft_modern token_id (Except.ok sd)).1 = ViewResult.ok ctx ∧
      ctx.state_name = "Upload") ∧
    (sd.state_index < -5 ∨ 4 < sd.state_index →
      (view_nft_modern token_id (Except.ok sd)).1 =
        ViewResult.httpError 404 "list index out of range") := by
  refine ⟨rfl, lifecycleGet_out_of_range _ hout, ?_, ?_⟩
  · intro h5 h0
    obtain ⟨c, hc⟩ := pyIndex_colors_some sd.state_index h5 (by omega)
    have hbuild : ∃ ctx, view_build_context token_id sd = Except.ok ctx ∧
        ctx.state_name = (lifecycleGet sd.state_index).name := by
      unfold view_build_context
      rw [hc]
      exact ⟨_, rfl, rfl⟩
    obtain ⟨ctx, hctx, hname⟩ := hbuild
    refine ⟨ctx, view_nft_modern_ok_eq _ _ _ hctx, ?_⟩
    rw [hname, lifecycleGet_out_of_range _ hout]
    rfl
  · intro hfar
    have hb : view_build_context token_id sd =
        Except.error "list index out of range" := by
      unfold view_build_context
      rw [pyIndex_colors_none sd.state_index hfar]
    exact view_nft_modern_err_eq _ _ _ hb

/-- C3 amended witness: at state 9 the view handler fails with the
IndexError-derived 404. -/
theorem unknown_state_fallback_witness :
    (view_nft_modern 7
        (Except.ok { sampleSong with state_index := 9 })).1 =
      ViewResult.httpError 404 "list index out of range" :=
  (unknown_state_fallback { sampleSong with state_index := 9 } [] 7
      (Or.inr (by decide))).2.2.2 (Or.inr (by decide))

/-- C3 counterexample: at state code 5 — outside 0-4 — with a successful
chain read, the view handler does not succeed: it returns a 404 from the
palette IndexError, contradicting the claim that an unrecognized state
never causes an error in either handler. -/
theorem view_unknown_state_counterexample :
    (view_nft_modern 7
        (Except.ok { sampleSong with state_index := 5 })).1 =
      ViewResult.httpError 404 "list index out of range" := by
  rfl
